import Mathlib

/-
Verification of fluffysquirrels/rust-module-example (src/main.rs).

The program is a tour of Rust's module system.  Its runtime behaviour is:
`main` prints one line ("Hello, world! Running on platform family '{}'"
interpolated with `use_platform()`), then calls `inline::inline_fn()` and
`name_resolution::public_inner::a()`, both no-ops, and exits with code 0.

The development embeds, from the source:
  * the build-time platform selection (`#[cfg(unix)]` / `#[cfg(windows)]`
    guarded `mod platform` declarations) and `use_platform`;
  * each function called at runtime, as a transformer of the stdout state
    (a list of printed lines, a trailing newline per line being implicit);
  * the body of `main` as a list of statements with a small semantics,
    including a fallibility-aware variant where each statement yields
    `Except`;
  * relative path resolution (`super::` / `crate::`) used in
    `inline::inline_fn`;
  * the full tree of items declared in `src/main.rs` (absolute path,
    `pub` flag, module flag), together with Rust's name-resolution rule as
    documented in the file's own comments (lines 103-124): an item is usable
    from a scope iff every component of its absolute path is `pub` or has
    its defining module containing the scope.
The `#[cfg(test)] mod tests` module is excluded (it is not part of a normal
build), and `use`-created bindings are not separate declared items.
-/

/-- Build-time platform selection: exactly one of the two `cfg`-guarded
`mod platform` declarations in src/main.rs (lines 84-90) is compiled,
loading either `unix.rs` or `windows.rs`. -/
inductive Platform
  | unix
  | windows
deriving DecidableEq

/-- Modelled from the spec: the files `unix.rs` and `windows.rs` named by the
two `#[path]`-overridden `mod platform` declarations are not among the
sources; per the spec the platform-family token is drawn from a fixed small
set of literal values, exactly one of the two compiled-in platform strings,
exported by the selected file as `platform::FAMILY`. -/
def platform.FAMILY : Platform → String
  | Platform.unix => "unix"
  | Platform.windows => "windows"

/-- Embeds `fn use_platform() -> &'static str { platform::FAMILY }`
(src/main.rs lines 94-96). -/
def use_platform (p : Platform) : String :=
  platform.FAMILY p

/-- The line printed by `main` (src/main.rs line 256): the format string
"Hello, world! Running on platform family '{}'" with the value of
`use_platform()` interpolated for the `{}` placeholder. -/
def greeting (p : Platform) : String :=
  "Hello, world! Running on platform family \x27" ++ use_platform p ++ "\x27"

/-- Embeds `fn f() {}` (src/main.rs line 64): a no-op on the stdout state. -/
def f (out : List String) : List String := out

/-- Embeds `fn inline_private() {}` (src/main.rs line 61): a no-op. -/
def inline.inline_private (out : List String) : List String := out

/-- Qualifiers of the two qualified paths used inside `inline::inline_fn`. -/
inductive PathQual
  | superQ
  | crateQ
deriving DecidableEq

/-- Resolution of a qualified path written in a module scope (src/main.rs
lines 47-49): `crate::rest` resolves from the crate root, `super::rest`
from the parent of the current module. -/
def resolveFrom (scope : List String) : PathQual → List String → List String
  | PathQual.superQ, rest => scope.dropLast ++ rest
  | PathQual.crateQ, rest => rest

/-- Denotation of a crate-root function named by a resolved absolute path;
paths naming no embedded function denote the no-op. -/
def fnAt : List String → List String → List String
  | ["f"], out => f out
  | _, out => out

/-- Embeds `pub fn inline_fn()` (src/main.rs lines 53-58): it calls
`super::f()`, then `crate::f()`, then `inline_private()`, each call written
via the path it resolves from the scope `inline`. -/
def inline.inline_fn (out : List String) : List String :=
  inline.inline_private
    (fnAt (resolveFrom ["inline"] PathQual.crateQ ["f"])
      (fnAt (resolveFrom ["inline"] PathQual.superQ ["f"]) out))

/-- Embeds `pub fn a() {}` of `name_resolution::public_inner`
(src/main.rs line 128): a no-op. -/
def name_resolution.public_inner.a (out : List String) : List String := out

/-- One statement of the program: print a line to stdout, or call the
function at an absolute path. -/
inductive Stmt
  | printLine (line : String)
  | callFn (path : List String)
deriving DecidableEq

/-- The body of `fn main()` (src/main.rs lines 255-260), one entry per
statement, in source order. -/
def mainBody (p : Platform) : List Stmt :=
  [Stmt.printLine (greeting p),
   Stmt.callFn ["inline", "inline_fn"],
   Stmt.callFn ["name_resolution", "public_inner", "a"]]

/-- Maps a called absolute path to the embedded function it denotes. -/
def callTarget : List String → List String → List String
  | ["f"], out => f out
  | ["inline", "inline_fn"], out => inline.inline_fn out
  | ["inline", "inline_private"], out => inline.inline_private out
  | ["name_resolution", "public_inner", "a"], out =>
      name_resolution.public_inner.a out
  | _, out => out

/-- Effect of one statement on the stdout state. -/
def runStmt (out : List String) : Stmt → List String
  | Stmt.printLine s => out ++ [s]
  | Stmt.callFn q => callTarget q out

/-- Stdout lines produced by one run of `main`, starting from empty output. -/
def runMain (p : Platform) : List String :=
  (mainBody p).foldl runStmt []

/-- Runtime inputs a process could receive; `main` reads none of them
(src/main.rs never touches argv, the environment, or any file). -/
structure RuntimeInput where
  args : List String
  env : List (String × String)

/-- A whole process run: the stdout lines and the exit code.  A Rust
`fn main()` returning `()` exits with the success code 0. -/
def runProgram (p : Platform) (_i : RuntimeInput) : List String × Nat :=
  (runMain p, 0)

/-- Fallibility-aware semantics of one statement: every statement of this
program returns `ok`; no statement in the source has an error path. -/
def runStmtE (out : List String) : Stmt → Except String (List String)
  | Stmt.printLine s => Except.ok (out ++ [s])
  | Stmt.callFn q => Except.ok (callTarget q out)

/-- Fallibility-aware run of `main`. -/
def runMainE (p : Platform) : Except String (List String) :=
  (mainBody p).foldlM runStmtE []

/-- Stateful embedding of `use_platform`: it reads no state, writes no
state, and returns the compiled-in `platform::FAMILY` string. -/
def use_platformS (p : Platform) (out : List String) : String × List String :=
  (platform.FAMILY p, out)

/-- One declared item of the crate: its absolute path from the crate root,
whether it is marked `pub`, and whether it is a module. -/
structure ModItem where
  path : List String
  isPub : Bool
  isMod : Bool
deriving DecidableEq

/-- Every item declared in src/main.rs with its visibility: the file-loading
module declarations (lines 17-90), the inline modules and their functions,
and the free functions.  `#[cfg(test)] mod tests` is not part of a normal
build and `use` bindings are not declarations, so neither is listed.
`platform::FAMILY` lives in the cfg-selected file; it must be `pub` for
`use_platform` (line 95) to compile. -/
def crateItems : List ModItem :=
  [⟨["a"], false, true⟩,
   ⟨["multi_level_style_1"], false, true⟩,
   ⟨["multi_level_style_2"], false, true⟩,
   ⟨["inline"], false, true⟩,
   ⟨["inline", "inline_fn"], true, false⟩,
   ⟨["inline", "inline_private"], false, false⟩,
   ⟨["f"], false, false⟩,
   ⟨["path_override"], false, true⟩,
   ⟨["platform"], false, true⟩,
   ⟨["platform", "FAMILY"], true, false⟩,
   ⟨["use_platform"], false, false⟩,
   ⟨["name_resolution"], false, true⟩,
   ⟨["name_resolution", "private_inner"], false, true⟩,
   ⟨["name_resolution", "private_inner", "a"], false, false⟩,
   ⟨["name_resolution", "private_inner", "b"], true, false⟩,
   ⟨["name_resolution", "test_private_inner"], false, false⟩,
   ⟨["name_resolution", "public_inner"], true, true⟩,
   ⟨["name_resolution", "public_inner", "a"], true, false⟩,
   ⟨["use_examples"], false, true⟩,
   ⟨["use_examples", "use_inner"], false, true⟩,
   ⟨["use_examples", "use_inner", "a"], true, false⟩,
   ⟨["use_examples", "use_inner", "b"], true, false⟩,
   ⟨["use_examples", "test_use"], false, false⟩,
   ⟨["use_examples", "use_wildcard"], false, true⟩,
   ⟨["use_examples", "use_wildcard", "not"], true, false⟩,
   ⟨["use_examples", "use_wildcard", "my"], true, false⟩,
   ⟨["use_examples", "use_wildcard", "favourite"], true, false⟩,
   ⟨["use_examples", "test_use_wildcard"], false, false⟩,
   ⟨["use_examples", "use_rename"], false, true⟩,
   ⟨["use_examples", "use_rename", "a"], true, false⟩,
   ⟨["use_examples", "use_nested_1"], false, true⟩,
   ⟨["use_examples", "use_nested_1", "use_nested_2"], true, true⟩,
   ⟨["use_examples", "use_nested_1", "use_nested_2", "g"], true, false⟩,
   ⟨["use_examples", "use_nested_1", "use_nested_2", "h"], true, false⟩,
   ⟨["use_examples", "use_nested_1", "use_nested_3"], true, true⟩,
   ⟨["use_examples", "use_nested_1", "use_nested_3", "g"], true, false⟩,
   ⟨["use_examples", "use_nested_1", "use_nested_3", "i"], true, false⟩,
   ⟨["use_examples", "use_nested_1", "j"], true, false⟩,
   ⟨["use_examples", "test_use_nested"], false, false⟩,
   ⟨["use_examples", "inner_1"], false, true⟩,
   ⟨["use_examples", "inner_1", "inner_2"], false, true⟩,
   ⟨["use_examples", "inner_1", "inner_2", "x"], true, false⟩,
   ⟨["use_examples", "test_pub_use"], false, false⟩,
   ⟨["main"], false, false⟩]

/-- Whether the item at an absolute path is marked `pub`. -/
def pubOf (p : List String) : Bool :=
  crateItems.any fun it => it.path == p && it.isPub

/-- `pathBelow m s`: scope `s` lies inside the subtree of the module with
absolute path `m` (that path is an initial segment of the scope's path). -/
def pathBelow : List String → List String → Bool
  | [], _ => true
  | _ :: _, [] => false
  | x :: xs, y :: ys => x == y && pathBelow xs ys

/-- Helper for `visibleFrom`, recursing from the item back up to the crate
root over the reversed path: the final component is usable when it is `pub`
or the scope lies inside its defining module, and the rest of the path is
itself usable. -/
def visibleRevAux (scope : List String) : List String → Bool
  | [] => true
  | c :: rest =>
      (pubOf (c :: rest).reverse || pathBelow rest.reverse scope)
        && visibleRevAux scope rest

/-- Rust name resolution as documented in src/main.rs lines 103-124 and
exercised by the file's compiling and non-compiling examples: the item at an
absolute path is usable from a scope iff every component of the path is
`pub` or has its defining module containing the scope. -/
def visibleFrom (scope p : List String) : Bool :=
  visibleRevAux scope p.reverse

/-- The visibility rule asserted by the spec, literally: the symbol is
reachable from the scope iff every module on the path from the scope to the
defining module, and the symbol itself, is marked as exported. -/
def specVisRule (scope p : List String) : Bool :=
  (List.range (p.length - scope.length)).all fun i =>
    pubOf (p.take (scope.length + i + 1))

/-- The amended visibility rule: components are checked along the whole
path from the crate root, and each must be exported unless its defining
module contains the scope. -/
def amendedVisRule (scope p : List String) : Bool :=
  (List.range p.length).all fun i =>
    pubOf (p.take (i + 1)) || pathBelow (p.take i) scope

/-- All module scopes of the crate: the root plus every declared module. -/
def moduleScopes : List (List String) :=
  [] :: (crateItems.filter (fun it => it.isMod)).map (fun it => it.path)

/-- The absolute paths of all declared items. -/
def itemPaths : List (List String) :=
  crateItems.map (fun it => it.path)

/-- Claim C1: every run prints a greeting containing the word "world", and
the platform token returned by `use_platform` equals exactly one of the two
compiled-in platform strings. -/
theorem greeting_contains_world_and_platform_token :
    ∀ p : Platform,
      (∃ pre post, greeting p = pre ++ "world" ++ post) ∧
      Xor' (use_platform p = platform.FAMILY Platform.unix)
        (use_platform p = platform.FAMILY Platform.windows) := by
  intro p
  cases p
  · exact ⟨⟨"Hello, ", "! Running on platform family \x27unix\x27", rfl⟩,
      Or.inl ⟨rfl, by decide⟩⟩
  · exact ⟨⟨"Hello, ", "! Running on platform family \x27windows\x27", rfl⟩,
      Or.inr ⟨rfl, by decide⟩⟩

/-- Claim C2: the exit code is always the success code 0, and no statement
of `main` has an error path: the fallibility-aware run returns `ok` on
every execution. -/
theorem exit_code_always_zero :
    ∀ (p : Platform) (i : RuntimeInput),
      (runProgram p i).2 = 0 ∧ runMainE p = Except.ok (runMain p) := by
  intro p i
  exact ⟨rfl, rfl⟩

/-- Claim C3: every run of `main` terminates with a final stdout state
after executing exactly three statements, with nothing after them. -/
theorem main_terminates_after_three_statements :
    ∀ p : Platform,
      (mainBody p).length = 3 ∧
      runMain p = [greeting p] ∧
      (mainBody p).drop 3 = [] := by
  intro p
  exact ⟨rfl, rfl, rfl⟩

/-- Claim C4: the whole externally observable effect of a run is the one
stdout line emitted by the first statement; the two functions `main` then
calls leave every state unchanged. -/
theorem observable_effect_single_line :
    ∀ p : Platform,
      runMain p = [greeting p] ∧
      (∀ out, inline.inline_fn out = out) ∧
      (∀ out, name_resolution.public_inner.a out = out) := by
  intro p
  exact ⟨rfl, fun _ => rfl, fun _ => rfl⟩

/-- Claim C5: `main` is exactly one print statement followed by exactly the
two calls `inline::inline_fn` and `name_resolution::public_inner::a`, in
that order. -/
theorem main_structure_print_then_two_calls :
    ∀ p : Platform,
      ∃ line, mainBody p =
        [Stmt.printLine line,
         Stmt.callFn ["inline", "inline_fn"],
         Stmt.callFn ["name_resolution", "public_inner", "a"]] := by
  intro p
  exact ⟨greeting p, rfl⟩

/-- Claim C6: the program reads no runtime input, so any two executions of
the same compiled build produce identical stdout and identical exit codes. -/
theorem executions_are_constant :
    ∀ (p : Platform) (i j : RuntimeInput), runProgram p i = runProgram p j := by
  intro p i j
  rfl

/-- Claim C7 counterexample: `name_resolution::public_inner::a` is reachable
from the crate root (main.rs line 259 calls it), yet the module
`name_resolution` on its path is not `pub`, so the claimed rule "every
module on the path from the scope to the defining module is exported"
denies it: the asserted equivalence fails at this scope and symbol. -/
theorem visibility_rule_counterexample :
    visibleFrom [] ["name_resolution", "public_inner", "a"] = true ∧
    specVisRule [] ["name_resolution", "public_inner", "a"] = false := by
  exact ⟨rfl, rfl⟩

/-- Claim C7 amended: for every scope and every declared item of the module
tree, the item is reachable from the scope iff every component of the
item's path from the crate root is exported or has its defining module
containing the scope; in particular `name_resolution::private_inner::b` is
visible inside `name_resolution` but not from the crate root, and
`name_resolution::public_inner::a` is visible from the crate root. -/
theorem visibility_rule_amended :
    (moduleScopes.all fun s => itemPaths.all fun p =>
      visibleFrom s p == amendedVisRule s p) = true ∧
    visibleFrom ["name_resolution"]
      ["name_resolution", "private_inner", "b"] = true ∧
    visibleFrom [] ["name_resolution", "private_inner", "b"] = false ∧
    visibleFrom [] ["name_resolution", "public_inner", "a"] = true := by
  exact ⟨by decide, rfl, rfl, rfl⟩

/-- Claim C8: the single printed line is exactly the text
"Hello, world! Running on platform family '<F>'" where <F> is the string
`use_platform()` returns. -/
theorem printed_line_exact_format :
    ∀ p : Platform,
      runMain p =
        ["Hello, world! Running on platform family \x27"
          ++ use_platform p ++ "\x27"] := by
  intro p
  rfl

/-- Claim C9: inside `inline::inline_fn` the paths `super::f` and `crate::f`
both resolve to the crate-root function `f`, so `inline_fn` is `f` twice
followed by `inline_private`, and that composite is the identity. -/
theorem inline_fn_path_resolution_and_noop :
    resolveFrom ["inline"] PathQual.superQ ["f"] = ["f"] ∧
    resolveFrom ["inline"] PathQual.crateQ ["f"] = ["f"] ∧
    (∀ out, inline.inline_fn out = inline.inline_private (f (f out))) ∧
    (∀ out, inline.inline_fn out = out) := by
  exact ⟨rfl, rfl, fun _ => rfl, fun _ => rfl⟩

/-- Claim C10: `use_platform` is a pure constant function of the build: it
leaves the state unchanged, and every call returns the same value, the
compiled-in `platform::FAMILY` string. -/
theorem use_platform_pure_constant :
    ∀ (p : Platform) (out out2 : List String),
      (use_platformS p out).2 = out ∧
      (use_platformS p out).1 = platform.FAMILY p ∧
      (use_platformS p out).1 = (use_platformS p out2).1 ∧
      use_platform p = platform.FAMILY p := by
  intro p out out2
  exact ⟨rfl, rfl, rfl, rfl⟩
